import Mathlib

/-!
Shallow embedding of `src/simple_sampleAgent.py` (a minimal conversational
agent loop) and proofs about its spec.

Python values produced by `json.loads` are modelled by the inductive `Json`
below.  Numbers keep their source lexeme (the claims never depend on numeric
arithmetic, only on dynamic typing and truthiness).  Python's dynamic faults
(`AttributeError`, `TypeError`, ...) are modelled by `Except PyError`.
The network call in `query_llm` is modelled by an explicit transport outcome;
the current wall-clock time used by the time tool is modelled by an abstract
`clock : String → String` mapping an IANA timezone name to a formatted
timestamp.
-/

namespace SampleAgent

/-- A JSON value as produced by Python's `json.loads`.  Numbers are kept as
their matched lexeme (`json.loads` would produce an `int` or `float`); object
fields are in insertion order with unique keys, as in a Python `dict`. -/
inductive Json where
  | null : Json
  | bool (b : Bool) : Json
  | num (lit : String) : Json
  | str (s : String) : Json
  | arr (elems : List Json) : Json
  | obj (fields : List (String × Json)) : Json

/-- JSON whitespace accepted between tokens by `json.loads`. -/
def isJsonWs (c : Char) : Bool :=
  c = ' ' || c = '\t' || c = '\n' || c = '\r'

/-- Skip JSON whitespace. -/
def skipWs : List Char → List Char
  | [] => []
  | c :: cs => if isJsonWs c then skipWs cs else c :: cs

/-- Value of one hex digit. -/
def hexVal (c : Char) : Option Nat :=
  if '0' ≤ c ∧ c ≤ '9' then some (c.toNat - '0'.toNat)
  else if 'a' ≤ c ∧ c ≤ 'f' then some (c.toNat - 'a'.toNat + 10)
  else if 'A' ≤ c ∧ c ≤ 'F' then some (c.toNat - 'A'.toNat + 10)
  else none

/-- Parse exactly four hex digits (the `XXXX` of a `\uXXXX` escape). -/
def parse4Hex : List Char → Option (Nat × List Char)
  | a :: b :: c :: d :: rest =>
    match hexVal a, hexVal b, hexVal c, hexVal d with
    | some x, some y, some z, some w => some (((x * 16 + y) * 16 + z) * 16 + w, rest)
    | _, _, _, _ => none
  | _ => none

/-- Turn a code point into a `Char`; code points that are not Unicode scalar
values (lone surrogates, which Python would keep in the `str`) are mapped to
U+FFFD, since a Lean `Char` cannot hold them.  No claim touches this corner. -/
def scalarOr (n : Nat) : Char :=
  if n.isValidChar then Char.ofNat n else '�'

/-- Scan the body of a JSON string after the opening quote: returns the
decoded characters and the input after the closing quote.  Mirrors Python's
strict scanner: unescaped control characters (< 0x20) and unknown escapes are
errors; `\uXXXX` escapes combine valid surrogate pairs. -/
def parseJString : Nat → List Char → Option (List Char × List Char)
  | 0, _ => none
  | _ + 1, [] => none
  | fuel + 1, c :: cs =>
    if c = '"' then some ([], cs)
    else if c = '\\' then
      match cs with
      | [] => none
      | e :: cs1 =>
        let cont : Char → List Char → Option (List Char × List Char) :=
          fun ch rest => (parseJString fuel rest).map (fun p => (ch :: p.1, p.2))
        if e = '"' then cont '"' cs1
        else if e = '\\' then cont '\\' cs1
        else if e = '/' then cont '/' cs1
        else if e = 'b' then cont (Char.ofNat 8) cs1
        else if e = 'f' then cont (Char.ofNat 12) cs1
        else if e = 'n' then cont '\n' cs1
        else if e = 'r' then cont '\r' cs1
        else if e = 't' then cont '\t' cs1
        else if e = 'u' then
          match parse4Hex cs1 with
          | none => none
          | some (n, cs2) =>
            if 0xD800 ≤ n ∧ n ≤ 0xDBFF then
              match cs2 with
              | '\\' :: 'u' :: cs3 =>
                match parse4Hex cs3 with
                | some (m, cs4) =>
                  if 0xDC00 ≤ m ∧ m ≤ 0xDFFF then
                    cont (scalarOr (0x10000 + (n - 0xD800) * 0x400 + (m - 0xDC00))) cs4
                  else cont (scalarOr n) cs2
                | none => cont (scalarOr n) cs2
              | _ => cont (scalarOr n) cs2
            else cont (scalarOr n) cs2
        else none
    else if c.toNat < 0x20 then none
    else (parseJString fuel cs).map (fun p => (c :: p.1, p.2))

/-- Take a maximal run of decimal digits. -/
def takeDigits : List Char → List Char × List Char
  | [] => ([], [])
  | c :: cs =>
    if '0' ≤ c ∧ c ≤ '9' then
      let p := takeDigits cs
      (c :: p.1, p.2)
    else ([], c :: cs)

/-- Integer part of Python's `NUMBER_RE`: `0` alone or `[1-9]` digits. -/
def parseIntPart : List Char → Option (List Char × List Char)
  | [] => none
  | c :: cs =>
    if c = '0' then some ([c], cs)
    else if '1' ≤ c ∧ c ≤ '9' then
      let p := takeDigits cs
      some (c :: p.1, p.2)
    else none

/-- Optional fraction part `(\.\d+)?`. -/
def parseFracPart : List Char → List Char × List Char
  | '.' :: cs =>
    match takeDigits cs with
    | ([], _) => ([], '.' :: cs)
    | (ds, rest) => ('.' :: ds, rest)
  | cs => ([], cs)

/-- Optional exponent part `([eE][-+]?\d+)?`. -/
def parseExpPart : List Char → List Char × List Char
  | [] => ([], [])
  | e :: cs =>
    if e = 'e' ∨ e = 'E' then
      match cs with
      | [] => ([], [e])
      | s :: cs1 =>
        if s = '+' ∨ s = '-' then
          match takeDigits cs1 with
          | ([], _) => ([], e :: s :: cs1)
          | (ds, rest) => (e :: s :: ds, rest)
        else
          match takeDigits (s :: cs1) with
          | ([], _) => ([], e :: s :: cs1)
          | (ds, rest) => (e :: ds, rest)
    else ([], e :: cs)

/-- Match a number lexeme per Python's `NUMBER_RE`
`(-?(?:0|[1-9]\d*))(\.\d+)?([eE][-+]?\d+)?`. -/
def parseNumber (cs : List Char) : Option (String × List Char) :=
  let stripped : List Char × List Char :=
    match cs with
    | '-' :: rest => (['-'], rest)
    | _ => ([], cs)
  match parseIntPart stripped.2 with
  | none => none
  | some (ip, cs2) =>
    let f := parseFracPart cs2
    let e := parseExpPart f.2
    some (String.mk (stripped.1 ++ ip ++ f.1 ++ e.1), e.2)

/-- Expect the given literal characters, returning the rest of the input. -/
def expectChars : List Char → List Char → Option (List Char)
  | [], cs => some cs
  | _ :: _, [] => none
  | l :: ls, c :: cs => if c = l then expectChars ls cs else none

/-- Insert a key into a Python-`dict`-style field list: a duplicate key keeps
its original position but takes the new value (last value wins). -/
def dictInsert (fields : List (String × Json)) (k : String) (v : Json) :
    List (String × Json) :=
  match fields with
  | [] => [(k, v)]
  | (k1, v1) :: rest => if k1 = k then (k1, v) :: rest else (k1, v1) :: dictInsert rest k v

mutual

/-- Parse one JSON value, as Python's scanner does: objects, arrays, strings,
`null`/`true`/`false`, the non-standard `NaN`/`Infinity`/`-Infinity` literals
that `json.loads` accepts by default, and numbers. -/
def parseValue : Nat → List Char → Option (Json × List Char)
  | 0, _ => none
  | fuel + 1, cs =>
    match cs with
    | [] => none
    | c :: rest =>
      if c = '"' then
        (parseJString (rest.length + 1) rest).map (fun p => (Json.str (String.mk p.1), p.2))
      else if c = '\x7b' then parseObjBody fuel (skipWs rest)
      else if c = '[' then parseArrBody fuel (skipWs rest)
      else if c = 'n' then (expectChars ['u', 'l', 'l'] rest).map (fun r => (Json.null, r))
      else if c = 't' then (expectChars ['r', 'u', 'e'] rest).map (fun r => (Json.bool true, r))
      else if c = 'f' then
        (expectChars ['a', 'l', 's', 'e'] rest).map (fun r => (Json.bool false, r))
      else if c = 'N' then (expectChars ['a', 'N'] rest).map (fun r => (Json.num "NaN", r))
      else if c = 'I' then
        (expectChars ['n', 'f', 'i', 'n', 'i', 't', 'y'] rest).map
          (fun r => (Json.num "Infinity", r))
      else if c = '-' then
        match rest with
        | 'I' :: r2 =>
          (expectChars ['n', 'f', 'i', 'n', 'i', 't', 'y'] r2).map
            (fun r => (Json.num "-Infinity", r))
        | _ => (parseNumber cs).map (fun p => (Json.num p.1, p.2))
      else (parseNumber cs).map (fun p => (Json.num p.1, p.2))

/-- Parse an array body after the opening bracket (whitespace skipped). -/
def parseArrBody : Nat → List Char → Option (Json × List Char)
  | 0, _ => none
  | fuel + 1, cs =>
    match cs with
    | ']' :: rest => some (Json.arr [], rest)
    | _ => parseArrLoop fuel cs []

/-- Elements of a non-empty array, comma separated, no trailing comma. -/
def parseArrLoop : Nat → List Char → List Json → Option (Json × List Char)
  | 0, _, _ => none
  | fuel + 1, cs, acc =>
    match parseValue fuel cs with
    | none => none
    | some (v, rest) =>
      match skipWs rest with
      | ']' :: rest2 => some (Json.arr (acc ++ [v]), rest2)
      | ',' :: rest2 => parseArrLoop fuel (skipWs rest2) (acc ++ [v])
      | _ => none

/-- Parse an object body after the opening brace (whitespace skipped). -/
def parseObjBody : Nat → List Char → Option (Json × List Char)
  | 0, _ => none
  | fuel + 1, cs =>
    match cs with
    | '\x7d' :: rest => some (Json.obj [], rest)
    | _ => parseObjLoop fuel cs []

/-- Members of a non-empty object: string key, colon, value, comma separated. -/
def parseObjLoop : Nat → List Char → List (String × Json) → Option (Json × List Char)
  | 0, _, _ => none
  | fuel + 1, cs, acc =>
    match cs with
    | '"' :: rest =>
      match parseJString (rest.length + 1) rest with
      | none => none
      | some (kcs, rest1) =>
        match skipWs rest1 with
        | ':' :: rest2 =>
          match parseValue fuel (skipWs rest2) with
          | none => none
          | some (v, rest3) =>
            let acc1 := dictInsert acc (String.mk kcs) v
            match skipWs rest3 with
            | '\x7d' :: rest4 => some (Json.obj acc1, rest4)
            | ',' :: rest4 => parseObjLoop fuel (skipWs rest4) acc1
            | _ => none
        | _ => none
    | _ => none

end

/-- Model of Python's `json.loads`: `some v` when it returns the value `v`,
`none` when it raises `json.JSONDecodeError` (leading/trailing whitespace is
allowed; trailing non-whitespace is "Extra data").  The fuel bounds nesting
like Python's recursion limit and is far larger than any input can use. -/
def parseJson (s : String) : Option Json :=
  match parseValue (s.length * 8 + 8) (skipWs s.data) with
  | some (v, rest) => if skipWs rest = [] then some v else none
  | none => none

/-! ## Python dynamic-fault model -/

/-- The uncaught-exception kinds the agent code can dynamically raise. -/
inductive PyError where
  | attributeError : PyError
  | typeError : PyError
  | keyError : PyError
  | indexError : PyError
deriving DecidableEq

/-- ASCII model of Python's `str.lower` (all names and actions in this
program are ASCII). -/
def pyLower (s : String) : String := String.mk (s.data.map Char.toLower)

/-- `dict.get` on a field list: first (unique) matching key. -/
def objGet (fields : List (String × Json)) (k : String) : Option Json :=
  match fields with
  | [] => none
  | (k1, v) :: rest => if k1 = k then some v else objGet rest k

/-- Whether a number lexeme denotes zero (mantissa digits all `0`), for
Python truthiness of numbers. -/
def numIsZero (lit : String) : Bool :=
  let noSign := match lit.data with
    | '-' :: cs => cs
    | cs => cs
  let mantissa := noSign.takeWhile (fun c => c ≠ 'e' ∧ c ≠ 'E')
  mantissa.all (fun c => c = '0' ∨ c = '.') && mantissa ≠ []

/-- Python truthiness of a `json.loads` value. -/
def truthy : Json → Bool
  | .null => false
  | .bool b => b
  | .num l => ¬ numIsZero l
  | .str s => s ≠ ""
  | .arr es => !es.isEmpty
  | .obj fs => !fs.isEmpty

/-- Python `repr()` of a `json.loads` value (number rendering keeps the JSON
lexeme, a harmless approximation of Python's int/float formatting). -/
def pyRepr : Json → String
  | .null => "None"
  | .bool true => "True"
  | .bool false => "False"
  | .num l => l
  | .str s => "'" ++ s ++ "'"
  | .arr es => "[" ++ String.intercalate ", " (es.attach.map (fun e => pyRepr e.1)) ++ "]"
  | .obj fs =>
    "\x7b" ++
      String.intercalate ", "
        (fs.attach.map (fun f => "'" ++ f.1.1 ++ "': " ++ pyRepr f.1.2)) ++ "\x7d"
decreasing_by
  all_goals simp_wf
  · have h := List.sizeOf_lt_of_mem e.2
    omega
  · have h := List.sizeOf_lt_of_mem f.2
    have h2 : sizeOf f.1.2 < sizeOf f.1 := by
      obtain ⟨⟨k, val⟩, hm⟩ := f
      simp
    omega

/-- Python `str()` of a value, as used in f-strings: like `repr()` except
that a top-level string is unquoted. -/
def pyStr (v : Json) : String :=
  match v with
  | .str s => s
  | other => pyRepr other

/-- The Python runtime type name of a value, for `AttributeError` messages. -/
def pyTypeName : Json → String
  | .null => "NoneType"
  | .bool _ => "bool"
  | .num l =>
    if l.contains '.' || l.contains 'e' || l.contains 'E' || l = "NaN"
        || l = "Infinity" || l = "-Infinity" then "float" else "int"
  | .str _ => "str"
  | .arr _ => "list"
  | .obj _ => "dict"

/-! ## TimeTool -/

/-- `TimeTool.name` (source line 22). -/
def timeToolName : String := "Time Tool"

/-- `TimeTool.description` (source line 25). -/
def timeToolDescription : String :=
  "Provide the current time of a given city. If no timezone is provided, it returns the local time."

/-- `TimeTool.get_timezone`'s fixed city-to-timezone table (lines 41-52). -/
def city_timezones : List (String × String) :=
  [("kolkata", "Asia/Kolkata"),
   ("london", "Europe/London"),
   ("new york", "America/New_York"),
   ("tokyo", "Asia/Tokyo"),
   ("paris", "Europe/Paris"),
   ("sydney", "Australia/Sydney"),
   ("los angeles", "America/Los_Angeles"),
   ("chicago", "America/Chicago"),
   ("dubai", "Asia/Dubai"),
   ("beijing", "Asia/Shanghai")]

/-- `TimeTool.get_timezone` (lines 40-53): case-insensitive table lookup. -/
def get_timezone (city : String) : Option String :=
  city_timezones.lookup (pyLower city)

/-- The body of `TimeTool.use` (lines 27-38) for a string `city` argument.
The current wall-clock time is abstracted by `clock`, which renders the
current time formatted for a given IANA timezone name (the
`astimezone(ZoneInfo(tz)).strftime(...)` part); every timezone in the fixed
table is valid, so no exception arises on this path. -/
def timeToolUse (clock : String → String) (city : String) : String :=
  match get_timezone city with
  | some tz => "The current time in " ++ city ++ " is " ++ clock tz ++ "."
  | none => "Could not determine the timezone for " ++ city ++ "."

/-- Invoking `TimeTool.use(**args)` as dispatch does (line 119).  Binding the
keyword arguments to the signature `use(self, city)` succeeds exactly when the
mapping has the single key `"city"`; otherwise Python raises `TypeError` at
the call site, before the tool's internal `try` can run.  A non-string `city`
raises `AttributeError` at `city.lower()` inside the `try`, which the tool
catches and converts to its descriptive error string. -/
def timeToolImpl (clock : String → String) (args : List (String × Json)) :
    Except PyError String :=
  match args with
  | [("city", v)] =>
    .ok (match v with
      | .str c => timeToolUse clock c
      | other =>
        "Error getting time for " ++ pyStr other ++ ": '" ++ pyTypeName other ++
          "' object has no attribute 'lower'")
  | _ => .error .typeError

/-! ## Agent orchestrator -/

/-- A registered tool: name, description and invocation behaviour (the
`Tool` abstract base class, lines 7-18). -/
structure ToolSpec where
  name : String
  description : String
  use : List (String × Json) → Except PyError String

/-- The `TimeTool` instance as a registry entry. -/
def timeTool (clock : String → String) : ToolSpec :=
  ⟨timeToolName, timeToolDescription, timeToolImpl clock⟩

/-- `Agent.__init__` state: tool registry, memory log, `max_memory`
(lines 56-59). -/
structure AgentState where
  tools : List ToolSpec
  memory : List String
  max_memory : Nat

/-- An `Agent()` after registering the given tools via `add_tool`
(lines 56-62, 172-174). -/
def mkAgent (tools : List ToolSpec) : AgentState := ⟨tools, [], 10⟩

/-- Python `l[-n:]` for `n = max_memory`: the last `n` entries (for `n = 0`,
`l[-0:]` is the whole list). -/
def truncLast (n : Nat) (l : List α) : List α :=
  if n = 0 then l else l.drop (l.length - n)

/-- What `process_input` returns: either a decision-shaped `dict` (the
respond/fallback dictionaries) or a tool's raw string result. -/
inductive AgentResult where
  | decision (d : Json) : AgentResult
  | toolResult (s : String) : AgentResult

/-- The literal `respond_to_user` dictionary shape
`\x7b"action": "respond_to_user", "args": \x7b"response": text\x7d\x7d`. -/
def respondDecision (text : String) : Json :=
  .obj [("action", .str "respond_to_user"), ("args", .obj [("response", .str text)])]

/-- The parser's fallback response text (line 70). -/
def notUnderstoodText : String :=
  "I couldn't understand the response from the LLM. It's not in the correct format."

/-- The Agent's JSON-decoding method (lines 64-70): `json.loads`, with
`json.JSONDecodeError` caught and converted to the fixed fallback decision
dictionary.  (The `print` diagnostics are side effects with no bearing on the
returned value.) -/
def jsonParser (input_string : String) : Json :=
  match parseJson input_string with
  | some v => v
  | none => respondDecision notUnderstoodText

/-- The `response_dict.get("action", "").lower()` expression of line 118:
`AttributeError` when `response_dict` is not a `dict` or the `action` value is
not a string. -/
def actionLower (v : Json) : Except PyError String :=
  match v with
  | .obj fields =>
    match objGet fields "action" with
    | none => .ok (pyLower "")
    | some (.str s) => .ok (pyLower s)
    | some _ => .error .attributeError
  | _ => .error .attributeError

/-- The `response_dict.get("args", \x7b\x7d)` of line 119, prepared for
`**`-expansion: a missing key defaults to the empty mapping; a non-mapping
value raises `TypeError` at the `use(**...)` call. -/
def argsOf (v : Json) : Except PyError (List (String × Json)) :=
  match v with
  | .obj fields =>
    match objGet fields "args" with
    | none => .ok []
    | some (.obj f) => .ok f
    | some _ => .error .typeError
  | _ => .error .attributeError

/-- The dispatch loop of lines 117-121: scan the registry in insertion order
for the first tool whose lowered name equals the lowered action; on a match
invoke it with the args as keyword arguments and return its result directly;
with no match, return the echo dictionary
`\x7b"action": "respond_to_user", "args": \x7b"response": raw\x7d\x7d`
built from the raw backend text (line 121). -/
def dispatch (tools : List ToolSpec) (v : Json) (raw : String) :
    Except PyError AgentResult :=
  match tools with
  | [] => .ok (.decision (respondDecision raw))
  | t :: ts =>
    match actionLower v with
    | .error e => .error e
    | .ok act =>
      if pyLower t.name = act then
        (argsOf v).bind (fun args => (t.use args).map AgentResult.toolResult)
      else dispatch ts v raw

/-- The `tool_descriptions` catalog of line 76. -/
def tool_descriptions (tools : List ToolSpec) : String :=
  String.intercalate "\n" (tools.map (fun t => "- " ++ t.name ++ ": " ++ t.description))

/-- The prompt f-string of lines 78-106, rendered from the agent state and
the user input: it interpolates only `user_input` and `tool_descriptions`. -/
def prompt_for (st : AgentState) (user_input : String) : String :=
  "User input: " ++ user_input ++
  "\n\nAvailable tools:\n" ++ tool_descriptions st.tools ++
  "\n\nInstructions:\n- Based on the user's input, decide if you should use a tool or respond directly.\n- If you need to use a tool, respond with the tool name and the arguments for the tool in JSON format.\n- If you decide to respond directly to the user, respond with the action \"respond_to_user\" and the response in JSON format.\n\n**Important**: Only return the JSON response with no additional text.\n\nExamples:\n\nExample 1 (Using a tool):\n\x7b\n    \"action\": \"Time Tool\",\n    \"args\": \x7b\n        \"city\": \"kolkata\"\n    \x7d\n\x7d\n\nExample 2 (Responding directly):\n\x7b\n    \"action\": \"respond_to_user\",\n    \"args\": \x7b\n        \"response\": \"Your direct response here.\"\n    \x7d\n\x7d"

/-- `Agent.process_input` (lines 72-121), with the completion backend
abstracted by `llm : prompt → raw text` (the observable behaviour of
`query_llm` when it returns).  Returns the updated state (the memory
mutations of lines 73-74 and 109 happen before any fault can be raised by
the dispatch of lines 117-121) together with the returned value or the
uncaught fault.  Note: line 74 truncates after the `User:` append, but no
truncation follows the `Agent:` append of line 109.  The `try/except` around
the JSON decoding (lines 111-115) is dead in this model because `jsonParser`
already catches its only failure mode. -/
def process_input (llm : String → String) (st : AgentState) (user_input : String) :
    AgentState × Except PyError AgentResult :=
  let mem1 := truncLast st.max_memory (st.memory ++ ["User: " ++ user_input])
  let response := llm (prompt_for st user_input)
  let mem2 := mem1 ++ ["Agent: " ++ response]
  let response_dict := jsonParser response
  (⟨st.tools, mem2, st.max_memory⟩, dispatch st.tools response_dict response)

/-- A sequence of processed turns: fold `process_input` over the user
inputs, threading the state. -/
def runTurns (llm : String → String) (st : AgentState) : List String → AgentState
  | [] => st
  | u :: us => runTurns llm (process_input llm st u).1 us

/-- The two memory lines one turn appends. -/
def turnLines (llm : String → String) (tools : List ToolSpec) (u : String) :
    List String :=
  ["User: " ++ u, "Agent: " ++ llm (prompt_for ⟨tools, [], 10⟩ u)]

/-- The full (untruncated) transcript of a sequence of turns. -/
def fullTranscript (llm : String → String) (tools : List ToolSpec) :
    List String → List String
  | [] => []
  | u :: us => turnLines llm tools u ++ fullTranscript llm tools us

/-! ## Completion client (`Agent.query_llm`, lines 123-153) -/

/-- The outcome of the blocking `requests.post` call of line 137 (plus
`raise_for_status` and `response.json()`): either some
`requests.exceptions.RequestException` (connection refused, timeout, non-2xx
status, non-JSON body) or a 2xx response whose JSON body is `body`. -/
inductive TransportOutcome where
  | requestError : TransportOutcome
  | response (body : Json) : TransportOutcome

/-- The pre-serialized no-content fallback (line 143). -/
def noContentFallbackText : String :=
  "\x7b\"action\": \"respond_to_user\", \"args\": \x7b\"response\": \"The LLM did not return any content.\"\x7d\x7d"

/-- The pre-serialized network-error fallback (lines 149 and 153). -/
def llmErrorFallbackText : String :=
  "\x7b\"action\": \"respond_to_user\", \"args\": \x7b\"response\": \"There was an error getting a response from the LLM.\"\x7d\x7d"

/-- Python's whitespace set for `str.strip()` (ASCII part). -/
def isPyWs (c : Char) : Bool :=
  c = ' ' || c = '\t' || c = '\n' || c = '\r' || c = '\x0b' || c = '\x0c'

/-- Python `str.strip()` (whitespace at both ends). -/
def pyStrip (s : String) : String :=
  String.mk (((s.data.dropWhile isPyWs).reverse.dropWhile isPyWs).reverse)

/-- Index `[0]` on the `choices` value: list head, first character of a
string, `KeyError` on a dict (its keys are strings, not `0`), `TypeError` on
a non-subscriptable value.  (Only reached when the value is truthy, so the
empty cases cannot arise.) -/
def pyIndexZero : Json → Except PyError Json
  | .arr (x :: _) => .ok x
  | .arr [] => .error .indexError
  | .str s =>
    match s.data with
    | c :: _ => .ok (.str (String.mk [c]))
    | [] => .error .indexError
  | .obj _ => .error .keyError
  | _ => .error .typeError

/-- The response handling inside the `try` of lines 139-146:
`choices = json_response.get('choices', [])`; if `choices` or
`choices[0].get('text')` is falsy return the no-content fallback; otherwise
return `choices[0]['text'].strip()`. -/
def extractText (body : Json) : Except PyError String :=
  match body with
  | .obj fields =>
    let choices := (objGet fields "choices").getD (.arr [])
    if truthy choices then
      match pyIndexZero choices with
      | .error e => .error e
      | .ok c0 =>
        match c0 with
        | .obj cf =>
          match objGet cf "text" with
          | none => .ok noContentFallbackText
          | some t =>
            if truthy t then
              match t with
              | .str s => .ok (pyStrip s)
              | _ => .error .attributeError
            else .ok noContentFallbackText
        | _ => .error .attributeError
    else .ok noContentFallbackText
  | _ => .error .attributeError

/-- `Agent.query_llm` (lines 123-153) as a function of the transport
outcome: `except requests.exceptions.RequestException` yields the error
fallback, `except (KeyError, IndexError)` likewise; any other dynamic fault
(notably `AttributeError`) propagates uncaught. -/
def query_llm (outcome : TransportOutcome) : Except PyError String :=
  match outcome with
  | .requestError => .ok llmErrorFallbackText
  | .response body =>
    match extractText body with
    | .ok s => .ok s
    | .error .keyError => .ok llmErrorFallbackText
    | .error .indexError => .ok llmErrorFallbackText
    | .error e => .error e

/-! ## Helper lemmas -/

/-- When no registered tool's lowered name equals the lowered action, the
dispatch loop falls through to the raw-text echo of line 121. -/
lemma dispatch_no_match (tools : List ToolSpec) (v : Json) (raw a : String)
    (ha : actionLower v = .ok a) (h : ∀ t ∈ tools, pyLower t.name ≠ a) :
    dispatch tools v raw = .ok (.decision (respondDecision raw)) := by
  induction tools with
  | nil => rfl
  | cons t ts ih =>
    simp only [dispatch, ha]
    rw [if_neg (h t (List.mem_cons_self t ts))]
    exact ih (fun t' ht' => h t' (List.mem_cons_of_mem _ ht'))

lemma truncLast_suffix (n : Nat) (l : List α) : truncLast n l <:+ l := by
  unfold truncLast
  split
  · exact List.suffix_rfl
  · exact List.drop_suffix _ _

lemma truncLast_length_le (n : Nat) (l : List α) (hn : n ≠ 0) :
    (truncLast n l).length ≤ n := by
  unfold truncLast
  rw [if_neg hn, List.length_drop]
  omega

lemma suffix_append_right {l1 l2 : List α} (h : l1 <:+ l2) (l3 : List α) :
    l1 ++ l3 <:+ l2 ++ l3 := by
  obtain ⟨p, hp⟩ := h
  exact ⟨p, by rw [← hp, List.append_assoc]⟩

/-- Memory invariant threaded through a run: if the memory is a suffix of the
transcript so far and has at most 11 entries, the same holds after any
further turns (10 entries survive the `User:`-append truncation of line 74;
the `Agent:` append of line 109 can push the log to 11 because no second
truncation follows it). -/
lemma runTurns_mem_invariant (llm : String → String) (tools : List ToolSpec) :
    ∀ (inputs : List String) (mem T : List String),
      mem <:+ T → mem.length ≤ 11 →
      (runTurns llm ⟨tools, mem, 10⟩ inputs).memory <:+
          (T ++ fullTranscript llm tools inputs) ∧
      (runTurns llm ⟨tools, mem, 10⟩ inputs).memory.length ≤ 11 := by
  intro inputs
  induction inputs with
  | nil =>
    intro mem T hs hl
    constructor
    · simpa [runTurns, fullTranscript] using hs
    · simpa [runTurns] using hl
  | cons u us ih =>
    intro mem T hs hl
    have h1 : truncLast 10 (mem ++ ["User: " ++ u]) <:+ T ++ ["User: " ++ u] :=
      (truncLast_suffix 10 _).trans (suffix_append_right hs _)
    have h2 : truncLast 10 (mem ++ ["User: " ++ u]) ++
          ["Agent: " ++ llm (prompt_for ⟨tools, [], 10⟩ u)] <:+
        (T ++ ["User: " ++ u]) ++ ["Agent: " ++ llm (prompt_for ⟨tools, [], 10⟩ u)] :=
      suffix_append_right h1 _
    have hlen : (truncLast 10 (mem ++ ["User: " ++ u]) ++
        ["Agent: " ++ llm (prompt_for ⟨tools, [], 10⟩ u)]).length ≤ 11 := by
      rw [List.length_append]
      have := truncLast_length_le 10 (mem ++ ["User: " ++ u]) (by omega)
      simp
      omega
    have hstep := ih (truncLast 10 (mem ++ ["User: " ++ u]) ++
        ["Agent: " ++ llm (prompt_for ⟨tools, [], 10⟩ u)])
      ((T ++ ["User: " ++ u]) ++ ["Agent: " ++ llm (prompt_for ⟨tools, [], 10⟩ u)])
      h2 hlen
    constructor
    · have := hstep.1
      simpa [runTurns, process_input, fullTranscript, turnLines, List.append_assoc] using this
    · have := hstep.2
      simpa [runTurns, process_input] using this

/-! ## Claims -/

/-- C1 (counterexample): after six processed turns starting from a fresh
agent, the memory log holds 11 entries, so it does not hold "at most 10
entries at every point between calls to processInput" — the code never
truncates after the `Agent:` append of line 109. -/
theorem memory_exceeds_spec_bound :
    10 < ((runTurns (fun _ => "r") (mkAgent []) ["1", "2", "3", "4", "5", "6"]).memory).length := by
  decide

/-- C1 (amended): between calls to processInput the memory log holds at most
11 entries (at most 10 right after the user-turn truncation, plus the one
appended `Agent:` line, which is not followed by a second truncation), and it
always holds the most recent turn records in order: it is a suffix of the
full untruncated transcript, so the oldest entries are the ones evicted. -/
theorem memory_bounded_and_recent (llm : String → String) (tools : List ToolSpec)
    (inputs : List String) :
    (runTurns llm (mkAgent tools) inputs).memory.length ≤ 11 ∧
    (runTurns llm (mkAgent tools) inputs).memory <:+ fullTranscript llm tools inputs := by
  have h := runTurns_mem_invariant llm tools inputs [] [] List.suffix_rfl (by simp)
  exact ⟨h.2, by simpa using h.1⟩

/-- C2 (counterexample): the rendered prompt does not depend on the memory
log — two states that differ only in memory (one of them holding a prior
turn) produce the very same prompt text for the same user input. -/
theorem prompt_ignores_memory_counter :
    prompt_for ⟨[], ["User: the secret city", "Agent: noted"], 10⟩ "hi" =
      prompt_for ⟨[], [], 10⟩ "hi" := rfl

/-- C2 (amended): the prompt passed to the Completion Client is built from
the current user input and the tool catalog only; the bounded memory log is
maintained but its contents are not included in the prompt. -/
theorem prompt_depends_only_on_tools_and_input (st1 st2 : AgentState) (u : String)
    (h : st1.tools = st2.tools) : prompt_for st1 u = prompt_for st2 u := by
  simp [prompt_for, h]

theorem prompt_depends_only_on_tools_and_input_witness :
    prompt_for ⟨[], ["User: a"], 10⟩ "hi" = prompt_for ⟨[], ["User: b", "Agent: c"], 10⟩ "hi" :=
  prompt_depends_only_on_tools_and_input ⟨[], ["User: a"], 10⟩
    ⟨[], ["User: b", "Agent: c"], 10⟩ "hi" rfl

/-- C3 (counterexample): on the raw backend text `[1]` — JSON that is valid
but not an object — `process_input` with the time tool registered raises an
uncaught `AttributeError` at `response_dict.get("action", "")` (line 118),
so it does not terminate normally for every raw backend text. -/
theorem process_input_faults_on_json_array :
    (process_input (fun _ => "[1]") (mkAgent [timeTool (fun _ => "12:00")]) "hi").2 =
      .error .attributeError := rfl

/-- C3 (amended): for every raw backend text that is not valid JSON
(malformed syntax), `process_input` terminates without raising and returns a
well-formed `respond_to_user` decision echoing the raw text, provided no
registered tool is named `respond_to_user` (case-insensitively); raw texts
that are valid JSON but not objects instead raise `AttributeError` when a
tool is registered. -/
theorem process_input_safe_on_malformed (llm : String → String) (st : AgentState)
    (u : String) (hp : parseJson (llm (prompt_for st u)) = none)
    (h : ∀ t ∈ st.tools, pyLower t.name ≠ "respond_to_user") :
    (process_input llm st u).2 =
      .ok (.decision (respondDecision (llm (prompt_for st u)))) := by
  show dispatch st.tools (jsonParser (llm (prompt_for st u))) (llm (prompt_for st u)) = _
  have hj : jsonParser (llm (prompt_for st u)) = respondDecision notUnderstoodText := by
    simp [jsonParser, hp]
  rw [hj]
  exact dispatch_no_match st.tools _ _ "respond_to_user" rfl h

theorem process_input_safe_on_malformed_witness :
    (process_input (fun _ => "not json") (mkAgent []) "hi").2 =
      .ok (.decision (respondDecision "not json")) :=
  process_input_safe_on_malformed (fun _ => "not json") (mkAgent []) "hi" rfl
    (by intro t ht; simp [mkAgent] at ht)

/-- The raw backend text of the C4 scenario:
`\x7b"action":"respond_to_user","args":\x7b"response":"hi"\x7d\x7d`. -/
def c4raw : String :=
  "\x7b\"action\":\"respond_to_user\",\"args\":\x7b\"response\":\"hi\"\x7d\x7d"

/-- C4 (counterexample): the raw text parses to an object whose args mapping
carries `response = "hi"`, yet `process_input` returns a decision carrying
the whole raw backend text (line 121 wraps `response`, not
`response_dict["args"]["response"]`) — and that raw text is not `"hi"`. -/
theorem respond_action_echoes_raw_counter :
    parseJson c4raw =
        some (.obj [("action", .str "respond_to_user"),
                    ("args", .obj [("response", .str "hi")])]) ∧
      (process_input (fun _ => c4raw) (mkAgent [timeTool (fun _ => "12:00")]) "say hi").2 =
        .ok (.decision (respondDecision c4raw)) ∧
      c4raw ≠ "hi" :=
  ⟨rfl, rfl, by decide⟩

/-- C4 (amended): whenever the raw backend text parses to an object with
action `respond_to_user` (and no registered tool bears that name), the
returned `respond_to_user` decision carries the raw backend text itself as
the response — not the parsed `args.response` text. -/
theorem respond_action_echoes_raw (llm : String → String) (st : AgentState)
    (u : String) (fields : List (String × Json))
    (hp : jsonParser (llm (prompt_for st u)) = .obj fields)
    (hact : objGet fields "action" = some (.str "respond_to_user"))
    (h : ∀ t ∈ st.tools, pyLower t.name ≠ "respond_to_user") :
    (process_input llm st u).2 =
      .ok (.decision (respondDecision (llm (prompt_for st u)))) := by
  show dispatch st.tools (jsonParser (llm (prompt_for st u))) (llm (prompt_for st u)) = _
  apply dispatch_no_match st.tools _ _ "respond_to_user" _ h
  rw [hp]
  simp [actionLower, hact]
  rfl

theorem respond_action_echoes_raw_witness :
    (process_input (fun _ => c4raw) (mkAgent []) "say hi").2 =
      .ok (.decision (respondDecision c4raw)) :=
  respond_action_echoes_raw (fun _ => c4raw) (mkAgent []) "say hi"
    [("action", .str "respond_to_user"), ("args", .obj [("response", .str "hi")])]
    rfl rfl (by intro t ht; simp [mkAgent] at ht)

/-- The raw backend text of the C5 scenario: a `Time Tool` action whose args
mapping is empty. -/
def c5raw : String := "\x7b\"action\":\"Time Tool\",\"args\":\x7b\x7d\x7d"

/-- C5 (counterexample): invoking the time tool the way dispatch does with an
empty args mapping raises an uncaught `TypeError` — keyword binding for
`use(self, city)` fails at the call site, before the tool's internal `try`
can catch anything — and the fault propagates out of `process_input`. -/
theorem time_tool_empty_args_type_error :
    timeToolImpl (fun _ => "12:00") [] = .error .typeError ∧
      (process_input (fun _ => c5raw) (mkAgent [timeTool (fun _ => "12:00")]) "time?").2 =
        .error .typeError :=
  ⟨rfl, rfl⟩

/-- C5 (amended): for every args mapping that binds to the signature — the
single named argument `city`, of any value — the time tool returns a string
and never raises: a non-string `city` is caught inside the tool and converted
to a descriptive error string; but mappings missing `city` (or with extra
keys) raise `TypeError` at the call site. -/
theorem time_tool_city_arg_never_faults (clock : String → String) (v : Json) :
    ∃ s : String, timeToolImpl clock [("city", v)] = .ok s := by
  cases v <;> exact ⟨_, rfl⟩

/-- C6 (counterexample): a 2xx response whose `choices` entry is not a
mapping (here `\x7b"choices": [5]\x7d`) raises an uncaught `AttributeError`
past `query_llm`'s boundary, and a response missing the expected fields
(here `\x7b\x7d`) yields the no-content fallback, which differs from the
network-failure fallback text the claim requires. -/
theorem query_llm_shape_fault_counter :
    query_llm (.response (.obj [("choices", .arr [.num "5"])])) = .error .attributeError ∧
      query_llm (.response (.obj [])) = .ok noContentFallbackText ∧
      noContentFallbackText ≠ llmErrorFallbackText :=
  ⟨rfl, rfl, by decide⟩

/-- C6 (amended): on any network-level failure (connection refused, timeout,
non-2xx status) `query_llm` returns the pre-serialized fallback equivalent to
`RespondToUser("There was an error getting a response from the LLM.")`; a
response missing the expected fields — no `choices` key, an empty `choices`
list, or a first choice whose `text` is missing or empty — yields the
pre-serialized no-content fallback instead of the network-failure one; and a
malformed `choices` entry — a non-mapping first element, or a truthy
non-string `text` — raises an uncaught `AttributeError` past the client's
boundary. -/
theorem query_llm_fallbacks :
    query_llm .requestError = .ok llmErrorFallbackText ∧
      (∀ fields : List (String × Json), objGet fields "choices" = none →
        query_llm (.response (.obj fields)) = .ok noContentFallbackText) ∧
      (∀ fields : List (String × Json), objGet fields "choices" = some (.arr []) →
        query_llm (.response (.obj fields)) = .ok noContentFallbackText) ∧
      (∀ (fields : List (String × Json)) (rest : List Json) (cf : List (String × Json)),
        objGet fields "choices" = some (.arr (.obj cf :: rest)) →
        objGet cf "text" = none →
        query_llm (.response (.obj fields)) = .ok noContentFallbackText) ∧
      (∀ (fields : List (String × Json)) (rest : List Json) (cf : List (String × Json)),
        objGet fields "choices" = some (.arr (.obj cf :: rest)) →
        objGet cf "text" = some (.str "") →
        query_llm (.response (.obj fields)) = .ok noContentFallbackText) ∧
      (∀ (fields : List (String × Json)) (c0 : Json) (rest : List Json),
        objGet fields "choices" = some (.arr (c0 :: rest)) →
        (∀ cf : List (String × Json), c0 ≠ .obj cf) →
        query_llm (.response (.obj fields)) = .error .attributeError) ∧
      (∀ (fields : List (String × Json)) (rest : List Json) (cf : List (String × Json))
          (t : Json),
        objGet fields "choices" = some (.arr (.obj cf :: rest)) →
        objGet cf "text" = some t → truthy t = true → (∀ s : String, t ≠ .str s) →
        query_llm (.response (.obj fields)) = .error .attributeError) := by
  refine ⟨rfl, ?_, ?_, ?_, ?_, ?_, ?_⟩
  · intro fields h
    simp [query_llm, extractText, h, truthy]
  · intro fields h
    simp [query_llm, extractText, h, truthy]
  · intro fields rest cf hch ht
    simp [query_llm, extractText, hch, ht, truthy, pyIndexZero]
  · intro fields rest cf hch ht
    simp [query_llm, extractText, hch, ht, truthy, pyIndexZero]
  · intro fields c0 rest hch hno
    cases c0 <;>
      first
        | exact absurd rfl (hno _)
        | simp [query_llm, extractText, hch, truthy, pyIndexZero]
  · intro fields rest cf t hch ht htruthy hns
    cases t <;>
      first
        | exact absurd rfl (hns _)
        | simp_all [query_llm, extractText, truthy, pyIndexZero]

theorem query_llm_fallbacks_witness :
    query_llm (.response (.obj [])) = .ok noContentFallbackText ∧
      query_llm (.response (.obj [("choices", .arr [])])) = .ok noContentFallbackText ∧
      query_llm (.response (.obj [("choices", .arr [.obj []])])) =
        .ok noContentFallbackText ∧
      query_llm (.response (.obj [("choices", .arr [.obj [("text", .str "")]])])) =
        .ok noContentFallbackText ∧
      query_llm (.response (.obj [("choices", .arr [.str "x"])])) =
        .error .attributeError ∧
      query_llm (.response (.obj [("choices", .arr [.obj [("text", .num "7")]])])) =
        .error .attributeError :=
  ⟨query_llm_fallbacks.2.1 [] rfl,
   query_llm_fallbacks.2.2.1 [("choices", .arr [])] rfl,
   query_llm_fallbacks.2.2.2.1 [("choices", .arr [.obj []])] [] [] rfl rfl,
   query_llm_fallbacks.2.2.2.2.1 [("choices", .arr [.obj [("text", .str "")]])] []
     [("text", .str "")] rfl rfl,
   query_llm_fallbacks.2.2.2.2.2.1 [("choices", .arr [.str "x"])] (.str "x") [] rfl
     (fun _cf h => Json.noConfusion h),
   query_llm_fallbacks.2.2.2.2.2.2 [("choices", .arr [.obj [("text", .num "7")]])] []
     [("text", .num "7")] (.num "7") rfl rfl rfl (fun _s h => Json.noConfusion h)⟩

/-- The raw backend text of the C7 scenario: an action naming no registered
tool. -/
def c7raw : String := "\x7b\"action\":\"Weather Tool\",\"args\":\x7b\x7d\x7d"

/-- C7: whenever the parsed decision's lowered action (the empty string when
the `action` field is absent) matches no registered tool name
case-insensitively, `process_input` returns a `respond_to_user` decision
carrying the raw backend text as the response, not an error. -/
theorem unmatched_action_echoes_raw (llm : String → String) (st : AgentState)
    (u a : String)
    (ha : actionLower (jsonParser (llm (prompt_for st u))) = .ok a)
    (h : ∀ t ∈ st.tools, pyLower t.name ≠ a) :
    (process_input llm st u).2 =
      .ok (.decision (respondDecision (llm (prompt_for st u)))) := by
  show dispatch st.tools (jsonParser (llm (prompt_for st u))) (llm (prompt_for st u)) = _
  exact dispatch_no_match st.tools _ _ a ha h

theorem unmatched_action_echoes_raw_witness :
    (process_input (fun _ => c7raw) (mkAgent [timeTool (fun _ => "12:00")]) "hi").2 =
      .ok (.decision (respondDecision c7raw)) :=
  unmatched_action_echoes_raw (fun _ => c7raw) (mkAgent [timeTool (fun _ => "12:00")])
    "hi" "weather tool" rfl
    (by
      intro t ht
      simp only [mkAgent] at ht
      rw [List.mem_singleton] at ht
      subst ht
      decide)

/-- A minimal registered tool used to witness dispatch order. -/
def echoTool (nm out : String) : ToolSpec := ⟨nm, "desc", fun _ => .ok out⟩

/-- C8: dispatch scans the registry in insertion order and the first tool
whose lowered name equals the lowered action wins (so duplicates after it are
unreachable); on the match it passes the decision's args to the tool as its
keyword arguments and returns the tool's text result directly (as a raw
string, not wrapped in a decision). -/
theorem dispatch_first_case_insensitive_match (pre post : List ToolSpec)
    (t : ToolSpec) (v : Json) (raw a : String)
    (ha : actionLower v = .ok a)
    (hpre : ∀ t' ∈ pre, pyLower t'.name ≠ a)
    (ht : pyLower t.name = a) :
    dispatch (pre ++ t :: post) v raw =
      (argsOf v).bind (fun args => (t.use args).map AgentResult.toolResult) := by
  induction pre with
  | nil => simp [dispatch, ha, ht]
  | cons p ps ih =>
    simp only [List.cons_append, dispatch, ha]
    rw [if_neg (hpre p (List.mem_cons_self p ps))]
    exact ih (fun t' h' => hpre t' (List.mem_cons_of_mem _ h'))

theorem dispatch_first_case_insensitive_match_witness :
    dispatch
        [echoTool "Other" "zero", echoTool "Time Tool" "first", echoTool "Time Tool" "second"]
        (.obj [("action", .str "TIME TOOL"), ("args", .obj [])]) "raw" =
      .ok (.toolResult "first") :=
  dispatch_first_case_insensitive_match [echoTool "Other" "zero"]
    [echoTool "Time Tool" "second"] (echoTool "Time Tool" "first")
    (.obj [("action", .str "TIME TOOL"), ("args", .obj [])]) "raw" "time tool"
    rfl
    (by
      intro t' h'
      rw [List.mem_singleton] at h'
      subst h'
      decide)
    (by decide)

/-- C9: for every input string on which structural interpretation fails
(`json.loads` raises), `jsonParser` returns exactly the fallback decision
`respond_to_user` / "I couldn't understand the response from the LLM. It's
not in the correct format." -/
theorem jsonParser_malformed_fallback (s : String) (h : parseJson s = none) :
    jsonParser s = respondDecision notUnderstoodText := by
  simp [jsonParser, h]

theorem jsonParser_malformed_fallback_witness :
    jsonParser "hello" = respondDecision notUnderstoodText :=
  jsonParser_malformed_fallback "hello" rfl

/-- C10: for every city whose case-insensitive form is not a key of the
fixed timezone table, the time tool returns the explanatory
"Could not determine the timezone for ..." text result rather than failing. -/
theorem time_tool_unknown_city (clock : String → String) (city : String)
    (h : get_timezone city = none) :
    timeToolImpl clock [("city", .str city)] =
      .ok ("Could not determine the timezone for " ++ city ++ ".") := by
  simp [timeToolImpl, timeToolUse, h]

theorem time_tool_unknown_city_witness :
    timeToolImpl (fun _ => "12:00") [("city", .str "Atlantis")] =
      .ok ("Could not determine the timezone for " ++ "Atlantis" ++ ".") :=
  time_tool_unknown_city (fun _ => "12:00") "Atlantis" rfl

end SampleAgent
